import Mathlib

/-!
Shallow embedding of the wasm_lancher core (src/wasm_lancher/src/lib.rs,
src/wasm_lancher/src/memory.rs).  Machine integers are modelled as Nat with
explicit wrap-around (mod 2^32 / 2^64) where the Rust code can overflow.
The wasm engine (wasmer) is modelled as an environment of oracles: export
lookup results, the invocation result, the remaining metering points and
the guest linear memory.
-/

/-- Two's-complement reinterpretation of an i32 value as a u32 (Rust's
`ptr as u32`). -/
def i32ToU32 (n : Int) : Nat := (n % 2^32).toNat

/-- Truncating cast of an i32 value to a u8 (Rust's `x as u8` on a small
nonnegative discriminant). -/
def i32ToU8 (n : Int) : Nat := (n % 256).toNat

/-- Wrapping u64 subtraction (release-mode semantics of `a - b` on u64):
for a, b < 2^64 this is the two's-complement wrap of a - b. -/
def u64sub (a b : Nat) : Nat := (2^64 + a - b) % 2^64

/-- Wrapping u64 multiplication (release-mode semantics of `a * b` on u64). -/
def u64mul (a b : Nat) : Nat := (a * b) % 2^64

/-- A wasmer `Value` as far as the launcher inspects it: either an i32 or
anything else (`Value::i32()` returns `None` on the latter). -/
inductive Value where
  | i32 (n : Int)
  | other
deriving DecidableEq, Repr

/-- Rust's `Value::i32(&self) -> Option<i32>`. -/
def Value.toI32 : Value → Option Int
  | .i32 n => some n
  | .other => none

/-- Memory-bridge errors, from `EmMemError` in src/wasm_lancher/src/memory.rs. -/
inductive EmMemError where
  | MemoryWriteFail (s : String)
  | MemoryWriteLoadFail (s : String)
  | MemoryReadDataLenFail (s : String)
  | MemoryReadDataFail (s : String)
  | MemoryReadGetMemoryFail (s : String)
  | MemoryAllocGetFnFail (s : String)
  | MemoryAllocCallFnFail (s : String)
  | MemoryAllocPtrEmpty
deriving DecidableEq, Repr

/-- Launcher errors, from `EmVmError` in src/wasm_lancher/src/lib.rs.
The constructors wrapping `ModuleError` / `InstanceError` of the missing
`core` submodule are not needed by any claim and are omitted. -/
inductive EmVmError where
  | FunctionExportFail (s : String)
  | FunctionCallFail (s : String)
  | FunctionCallOutOfGas
  | NewOpcodeBinaryEmpty
  | RetProgramMemReadFail (e : EmMemError)
deriving DecidableEq, Repr

/-- The program-code enum, from `ProgramCode` in src/wasm_lancher/src/lib.rs. -/
inductive ProgramCode where
  | Ok
  | FnInvalidEntryPoint
  | FnInvalidIndex
  | FnInvalidArgs
  | UndefinedErrPtr
  | UnknownError
  | OutOfGas
  | VmError
  | BorshEncodeInvalidArg
  | BorshDecodeInvalidArg
deriving DecidableEq, Repr

namespace ProgramCode

/-- `ProgramCode::to_i32`: the Rust enum discriminant, in declaration order. -/
def to_i32 : ProgramCode → Int
  | .Ok => 0
  | .FnInvalidEntryPoint => 1
  | .FnInvalidIndex => 2
  | .FnInvalidArgs => 3
  | .UndefinedErrPtr => 4
  | .UnknownError => 5
  | .OutOfGas => 6
  | .VmError => 7
  | .BorshEncodeInvalidArg => 8
  | .BorshDecodeInvalidArg => 9

/-- `ProgramCode::to_vec_u8`: the one-byte on-wire form `vec![tag as u8]`. -/
def to_vec_u8 (c : ProgramCode) : List Nat := [i32ToU8 c.to_i32]

/-- `ProgramCode::from_arr_u8`: compares the input byte slice against each
variant's `to_vec_u8` form in the source's match order; anything else is
`UnknownError`. -/
def from_arr_u8 (err : List Nat) : ProgramCode :=
  if err = ProgramCode.Ok.to_vec_u8 then .Ok
  else if err = ProgramCode.FnInvalidEntryPoint.to_vec_u8 then .FnInvalidEntryPoint
  else if err = ProgramCode.FnInvalidIndex.to_vec_u8 then .FnInvalidIndex
  else if err = ProgramCode.FnInvalidArgs.to_vec_u8 then .FnInvalidArgs
  else if err = ProgramCode.UnknownError.to_vec_u8 then .UnknownError
  else if err = ProgramCode.UndefinedErrPtr.to_vec_u8 then .UndefinedErrPtr
  else if err = ProgramCode.OutOfGas.to_vec_u8 then .OutOfGas
  else if err = ProgramCode.VmError.to_vec_u8 then .VmError
  else if err = ProgramCode.BorshEncodeInvalidArg.to_vec_u8 then .BorshEncodeInvalidArg
  else if err = ProgramCode.BorshDecodeInvalidArg.to_vec_u8 then .BorshDecodeInvalidArg
  else .UnknownError

/-- `ProgramCode::from_i32`: compares against each variant's `to_i32` in the
source's match order; anything else is `UnknownError`. -/
def from_i32 (err : Int) : ProgramCode :=
  if err = ProgramCode.Ok.to_i32 then .Ok
  else if err = ProgramCode.FnInvalidEntryPoint.to_i32 then .FnInvalidEntryPoint
  else if err = ProgramCode.FnInvalidIndex.to_i32 then .FnInvalidIndex
  else if err = ProgramCode.FnInvalidArgs.to_i32 then .FnInvalidArgs
  else if err = ProgramCode.UnknownError.to_i32 then .UnknownError
  else if err = ProgramCode.UndefinedErrPtr.to_i32 then .UndefinedErrPtr
  else if err = ProgramCode.OutOfGas.to_i32 then .OutOfGas
  else if err = ProgramCode.VmError.to_i32 then .VmError
  else if err = ProgramCode.BorshEncodeInvalidArg.to_i32 then .BorshEncodeInvalidArg
  else if err = ProgramCode.BorshDecodeInvalidArg.to_i32 then .BorshDecodeInvalidArg
  else .UnknownError

end ProgramCode

/-- The ten variants of ProgramCode, in declaration order. -/
def allCodes : List ProgramCode :=
  [.Ok, .FnInvalidEntryPoint, .FnInvalidIndex, .FnInvalidArgs,
   .UndefinedErrPtr, .UnknownError, .OutOfGas, .VmError,
   .BorshEncodeInvalidArg, .BorshDecodeInvalidArg]

example : ProgramCode.from_arr_u8 [6] = .OutOfGas := by decide
example : ProgramCode.from_arr_u8 [200] = .UnknownError := by decide
example : ProgramCode.from_arr_u8 [6, 6] = .UnknownError := by decide

/-!
Frame codec. The launcher calls `Memory::encode` and `Memory::decode_len`
from the external `memory` crate, whose source is not under src/.
-/

namespace Memory

/-- Modelled from the spec: `Memory::encode` of the `memory` crate (absent
from src/): a frame is the 4-byte little-endian payload length followed by
the payload (spec section 4.A: encode(payload) = len_le32(payload) ++ payload). -/
def encode (data : List Nat) : List Nat :=
  [data.length % 256, data.length / 256 % 256,
   data.length / 256^2 % 256, data.length / 256^3 % 256] ++ data

/-- Modelled from the spec: `Memory::decode_len` of the `memory` crate
(absent from src/): reads the 4-byte little-endian length prefix
(spec section 4.A). -/
def decode_len (b : List Nat) : Nat :=
  b.getD 0 0 + b.getD 1 0 * 256 + b.getD 2 0 * 256^2 + b.getD 3 0 * 256^3

end Memory

example : Memory.decode_len [1, 0, 0, 0] = 1 := by decide
example : Memory.encode [65] = [1, 0, 0, 0, 65] := by decide

/-!
Memory bridge (src/wasm_lancher/src/memory.rs). The engine objects
(store, instance, memory view) are modelled as oracles: the result of the
`mem_alloc` export lookup, the result of calling it, the result of the
`memory` export lookup, and the guest linear memory as a byte list.
-/

/-- Engine-side outcomes seen by `mem_alloc_store` / `mem_alloc_store_mut`:
whether `instance.exports.get_function("mem_alloc")` succeeds, and the first
value returned by calling it with a given size (the guest ABI declares
`mem_alloc(size: i32) -> i32`, arity one). -/
structure AllocEnv where
  getFn : Except String Unit
  call : Nat → Except String Value

namespace VmMemory

/-- `VmMemory::mem_alloc_store`: look up the `mem_alloc` export, call it with
`size`, and take the first returned value as an i32 pointer (`ptr as u32`).
A non-i32 value is `MemoryAllocPtrEmpty`; the value 0 is returned as a
successful pointer. -/
def mem_alloc_store (env : AllocEnv) (size : Nat) : Except EmMemError Nat :=
  match env.getFn with
  | .error e => .error (.MemoryAllocGetFnFail e)
  | .ok _ =>
    match env.call size with
    | .error e => .error (.MemoryAllocCallFnFail e)
    | .ok v =>
      match v.toI32 with
      | none => .error .MemoryAllocPtrEmpty
      | some ptr => .ok (i32ToU32 ptr)

/-- `VmMemory::mem_alloc_store_mut`: identical body to `mem_alloc_store`,
over the mutable-store capability. -/
def mem_alloc_store_mut (env : AllocEnv) (size : Nat) : Except EmMemError Nat :=
  match env.getFn with
  | .error e => .error (.MemoryAllocGetFnFail e)
  | .ok _ =>
    match env.call size with
    | .error e => .error (.MemoryAllocCallFnFail e)
    | .ok v =>
      match v.toI32 with
      | none => .error .MemoryAllocPtrEmpty
      | some ptr => .ok (i32ToU32 ptr)

/-- Allocation size requested by `mem_write_store` (memory.rs line 29):
`data.len() as u32`, with no room for the 4-byte length prefix. -/
def writeStoreAllocSize (data : List Nat) : Nat := data.length % 2^32

/-- Allocation size requested by `mem_write_mut_store` (memory.rs line 48):
`(val.len() as u32) + 4`. -/
def writeMutStoreAllocSize (val : List Nat) : Nat := (val.length % 2^32 + 4) % 2^32

/-- Engine-side outcomes seen by the write operations: the allocator oracle,
the `memory` export lookup, and the memory view's `write(ptr, buffer)`. -/
structure WriteEnv where
  alloc : AllocEnv
  getMemory : Except String Unit
  writeMem : Nat → List Nat → Except String Unit

/-- `VmMemory::mem_write`: encode the payload as a frame, write the frame at
`ptr` through the memory view, and return `ptr`. -/
def mem_write (writeMem : Nat → List Nat → Except String Unit) (ptr : Nat)
    (data : List Nat) : Except EmMemError Nat :=
  let buffer := Memory.encode data
  match writeMem ptr buffer with
  | .error e => .error (.MemoryWriteFail e)
  | .ok _ => .ok ptr

/-- `VmMemory::mem_write_store`: allocate `writeStoreAllocSize data` bytes via
`mem_alloc_store`, look up the `memory` export, then `mem_write` the frame. -/
def mem_write_store (env : WriteEnv) (data : List Nat) : Except EmMemError Nat :=
  match mem_alloc_store env.alloc (writeStoreAllocSize data) with
  | .error e => .error e
  | .ok ptr =>
    match env.getMemory with
    | .error e => .error (.MemoryWriteLoadFail e)
    | .ok _ => mem_write env.writeMem ptr data

/-- `VmMemory::mem_write_mut_store`: allocate `writeMutStoreAllocSize val`
bytes via `mem_alloc_store_mut`, look up the `memory` export, then
`mem_write` the frame. -/
def mem_write_mut_store (env : WriteEnv) (val : List Nat) : Except EmMemError Nat :=
  match mem_alloc_store_mut env.alloc (writeMutStoreAllocSize val) with
  | .error e => .error e
  | .ok ptr =>
    match env.getMemory with
    | .error e => .error (.MemoryWriteLoadFail e)
    | .ok _ => mem_write env.writeMem ptr val

/-- A memory view read `mem_view.read(ptr, buffer)` over the guest linear
memory modelled as a byte list: fills a buffer of length `len` from offset
`ptr`, failing when the range is out of bounds. -/
def memViewRead (mem : List Nat) (ptr len : Nat) : Except String (List Nat) :=
  if ptr + len ≤ mem.length then .ok ((mem.drop ptr).take len) else .error "out of bounds"

/-- `VmMemory::mem_read`: read the 4-byte length prefix at `ptr`, decode it,
then read that many payload bytes at `ptr + 4`. -/
def mem_read (mem : List Nat) (ptr : Nat) : Except EmMemError (List Nat) :=
  match memViewRead mem ptr 4 with
  | .error e => .error (.MemoryReadDataLenFail e)
  | .ok b4 =>
    let len := Memory.decode_len b4
    match memViewRead mem (ptr + 4) len with
    | .error e => .error (.MemoryReadDataFail e)
    | .ok buffer => .ok buffer

/-- `VmMemory::mem_read_store`: look up the `memory` export, then `mem_read`
at `ptr`. -/
def mem_read_store (memExportOk : Bool) (mem : List Nat) (ptr : Nat) :
    Except EmMemError (List Nat) :=
  if memExportOk then mem_read mem ptr
  else .error (.MemoryReadGetMemoryFail "memory export missing")

end VmMemory

example : VmMemory.mem_read [1, 0, 0, 0, 0, 65] 0 = .ok [0] := rfl
example : VmMemory.mem_read [2, 0, 0, 0, 0, 65] 0 = .ok [0, 65] := rfl

/-!
Launcher (src/wasm_lancher/src/lib.rs, `VMLauncher::run` and helpers).
-/

/-- `VmRunResult` from src/wasm_lancher/src/lib.rs. -/
structure VmRunResult where
  error : Option EmVmError
  program_code : ProgramCode
  program_data : List Nat
  gas_used : Nat
deriving DecidableEq, Repr

/-- Engine-side outcomes seen by one `VMLauncher::run` call: the entry-point
export lookup (`instance.exports.get_function(fn_name)`), the invocation
result (`ret_fn.call(store, [])`, a boxed value list or an engine error),
the remaining metering points after the invocation, and the outcome of
`VmMemory::mem_read_store` at any pointer. -/
structure RunEnv where
  exportRes : Except String Unit
  callResult : Except String (List Value)
  meterLeft : Nat
  readFn : Nat → Except EmMemError (List Nat)

namespace VMLauncher

/-- `VMLauncher::DEF_PROGRAM_RET_EMPTY`. -/
def DEF_PROGRAM_RET_EMPTY : List Nat := []

/-- `VMLauncher::calc_gas`: `gas_limit / gas_priority` (u64 integer division). -/
def calc_gas (gas_priority gas_limit : Nat) : Nat := gas_limit / gas_priority

/-- `VMLauncher::get_gas_left`: when the launcher was built with metering
(`gas_used = true`) this reads the engine's remaining metering points
(`GasMetering::get_left`, from the `core` submodule absent from src/,
modelled from the spec as the oracle value `meterLeft`); with metering off
it returns 0 without consulting the engine. -/
def getGasLeft (gas_used : Bool) (meterLeft : Nat) : Nat :=
  match gas_used with
  | true => meterLeft
  | false => 0

/-- The gas points installed by `run` before invocation (lib.rs lines
177-181): `set_remaining_points` is called with `calc_gas gas_priority
gas_limit` exactly when `gas_priority` is nonzero, otherwise nothing is
installed. -/
def installedPoints (gas_priority gas_limit : Nat) : Option Nat :=
  if gas_priority ≠ 0 then some (calc_gas gas_priority gas_limit) else none

/-- `VMLauncher::ret_program`: interpret the boxed invocation result as an
i32 pointer, read the return frame from guest memory and parse its program
code.  In the Rust source an empty frame makes `result[0..1]` panic; here an
empty frame takes the non-Ok branch (no claim exercises an empty frame). -/
def ret_program (readFn : Nat → Except EmMemError (List Nat))
    (value : List Value) (gas_used : Nat) : VmRunResult :=
  match value with
  | [] => ⟨none, .UnknownError, DEF_PROGRAM_RET_EMPTY, gas_used⟩
  | v :: _ =>
    match v.toI32 with
    | none => ⟨none, .UndefinedErrPtr, DEF_PROGRAM_RET_EMPTY, gas_used⟩
    | some ptrI =>
      let ptr := i32ToU32 ptrI
      match readFn ptr with
      | .error e => ⟨some (.RetProgramMemReadFail e), .UndefinedErrPtr,
                     DEF_PROGRAM_RET_EMPTY, gas_used⟩
      | .ok result =>
        match ProgramCode.from_arr_u8 (result.take 1) with
        | .Ok => ⟨none, .Ok, result.drop 1, gas_used⟩
        | _ => ⟨none, ProgramCode.from_arr_u8 result, DEF_PROGRAM_RET_EMPTY, gas_used⟩

/-- `VMLauncher::run`: install the scaled gas limit when `gas_priority` is
nonzero, look up and invoke the entry point, synthesize `OutOfGas` when the
invocation fails with the gas-left reading at 0, and otherwise hand the
boxed return value to `ret_program` with
`gas_used = (gas_limit_calc - gas_left) * gas_priority`.  The u64
subtraction and multiplication wrap modulo 2^64 as in release-mode Rust;
`set_remaining_points` is an engine capability modelled as total. -/
def run (gas_used : Bool) (env : RunEnv) (gas_priority gas_limit : Nat) : VmRunResult :=
  let gas_limit_calc := if gas_priority ≠ 0 then calc_gas gas_priority gas_limit else 0
  match env.exportRes with
  | .error e =>
    ⟨some (.FunctionExportFail e), .FnInvalidEntryPoint, DEF_PROGRAM_RET_EMPTY, 0⟩
  | .ok _ =>
    match env.callResult with
    | .error e =>
      let u64_gas_left := getGasLeft gas_used env.meterLeft
      match u64_gas_left with
      | 0 => ⟨some .FunctionCallOutOfGas, .OutOfGas, DEF_PROGRAM_RET_EMPTY, gas_limit⟩
      | _ => ⟨some (.FunctionCallFail e), .UnknownError, DEF_PROGRAM_RET_EMPTY,
              u64sub gas_limit_calc u64_gas_left⟩
    | .ok vals =>
      let gas_left := getGasLeft gas_used env.meterLeft
      ret_program env.readFn vals (u64mul (u64sub gas_limit_calc gas_left) gas_priority)

/-- Instrumentation of the two u64 subtractions `gas_limit_calc - gas_left`
in `run` (lib.rs lines 212 and 226): true when the subtraction that `run`
actually reaches would underflow, i.e. when the gas-left reading exceeds
`gas_limit_calc`. -/
def runGasSubUnderflows (gas_used : Bool) (env : RunEnv)
    (gas_priority gas_limit : Nat) : Bool :=
  let gas_limit_calc := if gas_priority ≠ 0 then calc_gas gas_priority gas_limit else 0
  match env.exportRes with
  | .error _ => false
  | .ok _ =>
    match env.callResult with
    | .error _ =>
      let u64_gas_left := getGasLeft gas_used env.meterLeft
      match u64_gas_left with
      | 0 => false
      | _ => decide (gas_limit_calc < u64_gas_left)
    | .ok _ => decide (gas_limit_calc < getGasLeft gas_used env.meterLeft)

end VMLauncher

/-!
Helper lemmas shared by the claim theorems.
-/

/-- Every one-byte on-wire form has length 1. -/
theorem to_vec_u8_length (c : ProgramCode) : c.to_vec_u8.length = 1 := by
  cases c <;> rfl

/-- A byte slice matching no variant's on-wire form parses to UnknownError. -/
theorem from_arr_u8_unknown_of_ne (l : List Nat)
    (h : ∀ c : ProgramCode, c.to_vec_u8 ≠ l) :
    ProgramCode.from_arr_u8 l = .UnknownError := by
  unfold ProgramCode.from_arr_u8
  split_ifs with h1 h2 h3 h4 h5 h6 h7 h8 h9 h10 <;>
    first
      | rfl
      | exact absurd (by assumption : l = _).symm (h _)

/-- `ret_program` passes its gas argument through unchanged on every path. -/
theorem ret_program_gas_eq (readFn : Nat → Except EmMemError (List Nat))
    (value : List Value) (gas : Nat) :
    (VMLauncher.ret_program readFn value gas).gas_used = gas := by
  unfold VMLauncher.ret_program
  cases value with
  | nil => rfl
  | cons v rest =>
    cases v with
    | other => rfl
    | i32 n =>
      simp only [Value.toI32]
      cases readFn (i32ToU32 n) with
      | error e => rfl
      | ok result =>
        cases hq : ProgramCode.from_arr_u8 (result.take 1) <;> simp [hq]

/-- `ret_program` never produces the `FunctionCallOutOfGas` error. -/
theorem ret_program_error_ne_oog (readFn : Nat → Except EmMemError (List Nat))
    (value : List Value) (gas : Nat) :
    (VMLauncher.ret_program readFn value gas).error ≠ some .FunctionCallOutOfGas := by
  unfold VMLauncher.ret_program
  cases value with
  | nil => simp
  | cons v rest =>
    cases v with
    | other => simp [Value.toI32]
    | i32 n =>
      simp only [Value.toI32]
      cases readFn (i32ToU32 n) with
      | error e => simp
      | ok result =>
        cases hq : ProgramCode.from_arr_u8 (result.take 1) <;> simp only [hq] <;> simp

/-- On every path of `ret_program`, either the returned data is empty or the
returned code is Ok. -/
theorem ret_program_data_empty_or_ok (readFn : Nat → Except EmMemError (List Nat))
    (value : List Value) (gas : Nat) :
    (VMLauncher.ret_program readFn value gas).program_data = [] ∨
    (VMLauncher.ret_program readFn value gas).program_code = .Ok := by
  unfold VMLauncher.ret_program
  cases value with
  | nil => left; rfl
  | cons v rest =>
    cases v with
    | other => left; rfl
    | i32 n =>
      simp only [Value.toI32]
      cases readFn (i32ToU32 n) with
      | error e => left; rfl
      | ok result =>
        cases hq : ProgramCode.from_arr_u8 (result.take 1) <;>
          simp [hq, VMLauncher.DEF_PROGRAM_RET_EMPTY]

/-- The gas-left reading is 0 exactly when metering is off or the remaining
points are 0. -/
theorem getGasLeft_eq_zero_iff (g : Bool) (m : Nat) :
    VMLauncher.getGasLeft g m = 0 ↔ (g = false ∨ m = 0) := by
  cases g <;> simp [VMLauncher.getGasLeft]

/-!
Concrete environments used by counterexamples and witnesses.
-/

/-- A launcher environment whose entry-point invocation returns an engine
error while the live metering points are nonzero. -/
def envTrap : RunEnv := ⟨.ok (), .error "guest trap", 7, fun _ => .ok [0]⟩

/-- A launcher environment whose invocation succeeds and whose return frame
is the two-byte payload [0, 65] (code Ok followed by one data byte). -/
def envOkData : RunEnv := ⟨.ok (), .ok [Value.i32 0], 0, fun _ => .ok [0, 65]⟩

/-- The metered environment of the spec's gas-scaling scenario: the guest
consumes 1000 of the 3000 installed points, leaving 2000. -/
def envScaling : RunEnv := ⟨.ok (), .ok [Value.i32 0], 2000, fun _ => .ok [0]⟩

/-- Guest linear memory holding the spec's happy-path frame
[1, 0, 0, 0, 0, 0x41] at offset 0. -/
def memS3 : List Nat := [1, 0, 0, 0, 0, 65]

/-- The happy-path environment: the entry point returns pointer 0 into
`memS3`, metering off. -/
def envS3 : RunEnv := ⟨.ok (), .ok [Value.i32 0], 0, VmMemory.mem_read_store true memS3⟩

/-- Guest linear memory holding the corrected happy-path frame
[2, 0, 0, 0, 0, 0x41] (inner length 2: code byte plus one data byte). -/
def memS3b : List Nat := [2, 0, 0, 0, 0, 65]

/-- The corrected happy-path environment over `memS3b`. -/
def envS3b : RunEnv := ⟨.ok (), .ok [Value.i32 0], 0, VmMemory.mem_read_store true memS3b⟩

/-- A metered environment with a successful invocation and 5 live metering
points; used with gas_priority 0, where nothing is installed. -/
def envLivePoints : RunEnv := ⟨.ok (), .ok [Value.i32 0], 5, fun _ => .ok [0]⟩

/-- A metered environment with 2 remaining points after a successful
invocation. -/
def envSmallLeft : RunEnv := ⟨.ok (), .ok [Value.i32 0], 2, fun _ => .ok [0]⟩

/-- An allocator environment whose `mem_alloc` call returns the i32 value 0. -/
def envAllocZero : AllocEnv := ⟨.ok (), fun _ => .ok (.i32 0)⟩

/-- A write environment whose allocator returns pointer 16 and whose memory
view accepts every write. -/
def envWrite : VmMemory.WriteEnv := ⟨⟨.ok (), fun _ => .ok (.i32 16)⟩, .ok (), fun _ _ => .ok ()⟩

/-!
Claim theorems.
-/

/-- Claim C7: for every ProgramCode variant c, from_arr_u8 (to_vec_u8 c) = c
and from_i32 (to_i32 c) = c; the variant-to-tag mapping (both the one-byte
on-wire form and the i32 discriminant) is injective and total over the ten
variants (every variant occurs in allCodes, the ten-element enumeration, and
the mapped tags are pairwise distinct). -/
theorem programCode_roundtrip_injective_total :
    (∀ c : ProgramCode,
      ProgramCode.from_arr_u8 c.to_vec_u8 = c ∧
      ProgramCode.from_i32 c.to_i32 = c ∧ c ∈ allCodes) ∧
    (allCodes.map ProgramCode.to_vec_u8).Nodup ∧
    (allCodes.map ProgramCode.to_i32).Nodup ∧
    allCodes.length = 10 := by
  refine ⟨fun c => ?_, by decide, by decide, by decide⟩
  cases c <;> exact ⟨by decide, by decide, by decide⟩

/-- Claim C8: every byte b assigned to no ProgramCode variant parses as
UnknownError, and every frame longer than one byte whose first byte is a
non-Ok code reparses as UnknownError, so ret_program returns program_code
UnknownError for such a frame. -/
theorem from_arr_u8_unknown_collapse (b : Nat) (frame : List Nat) (gas : Nat) :
    (b < 256 → (∀ c : ProgramCode, c.to_vec_u8 ≠ [b]) →
      ProgramCode.from_arr_u8 [b] = .UnknownError) ∧
    (ProgramCode.from_arr_u8 (frame.take 1) ≠ .Ok → 1 < frame.length →
      ProgramCode.from_arr_u8 frame = .UnknownError ∧
      (VMLauncher.ret_program (fun _ => .ok frame) [Value.i32 0] gas).program_code
        = .UnknownError) := by
  constructor
  · intro _ h
    exact from_arr_u8_unknown_of_ne [b] h
  · intro hok hlen
    have hne : ∀ c : ProgramCode, c.to_vec_u8 ≠ frame := by
      intro c hc
      have hlc := to_vec_u8_length c
      rw [hc] at hlc
      omega
    have hunk := from_arr_u8_unknown_of_ne frame hne
    refine ⟨hunk, ?_⟩
    unfold VMLauncher.ret_program
    simp only [Value.toI32]
    cases hq : ProgramCode.from_arr_u8 (frame.take 1) <;> simp [hq, hunk]

/-- Claim C8 witness: the unknown byte 200 parses as UnknownError, and the
two-byte frame [6, 6] (first byte OutOfGas, a non-Ok code) collapses to
UnknownError, also through ret_program. -/
theorem from_arr_u8_unknown_collapse_witness :
    ProgramCode.from_arr_u8 [200] = .UnknownError ∧
    (ProgramCode.from_arr_u8 [6, 6] = .UnknownError ∧
     (VMLauncher.ret_program (fun _ => .ok [6, 6]) [Value.i32 0] 0).program_code
       = .UnknownError) :=
  ⟨(from_arr_u8_unknown_collapse 200 [6, 6] 0).1 (by decide)
     (by intro c; cases c <;> decide),
   (from_arr_u8_unknown_collapse 200 [6, 6] 0).2 (by decide) (by decide)⟩

/-- Claim C9: every VmRunResult returned by run with nonempty program_data
has program_code Ok. -/
theorem run_data_nonempty_code_ok (gas_used : Bool) (env : RunEnv)
    (gas_priority gas_limit : Nat)
    (h : (VMLauncher.run gas_used env gas_priority gas_limit).program_data ≠ []) :
    (VMLauncher.run gas_used env gas_priority gas_limit).program_code = .Ok := by
  have hch : (VMLauncher.run gas_used env gas_priority gas_limit).program_data = [] ∨
      (VMLauncher.run gas_used env gas_priority gas_limit).program_code = .Ok := by
    unfold VMLauncher.run
    cases env.exportRes with
    | error e => left; rfl
    | ok u =>
      cases env.callResult with
      | error s =>
        cases VMLauncher.getGasLeft gas_used env.meterLeft with
        | zero => left; rfl
        | succ n => left; rfl
      | ok vals => exact ret_program_data_empty_or_ok env.readFn vals _
  rcases hch with h0 | h0
  · exact absurd h0 h
  · exact h0

/-- Claim C9 witness: a run whose guest returns the frame [0, 0x41] has
nonempty program_data [0x41] and program_code Ok. -/
theorem run_data_nonempty_code_ok_witness :
    (VMLauncher.run false envOkData 0 0).program_data ≠ [] ∧
    (VMLauncher.run false envOkData 0 0).program_code = .Ok :=
  ⟨by decide, run_data_nonempty_code_ok false envOkData 0 0 (by decide)⟩

/-- Claim C1 counterexample: on a launcher with metering off, an engine
error from the invocation yields program_code OutOfGas with error
FunctionCallOutOfGas and gas_used = gas_limit (here 5), although the run is
not metered — the gas-left reading is 0 simply because metering is off. -/
theorem run_nonmetered_error_yields_out_of_gas :
    VMLauncher.run false envTrap 0 5 =
      ⟨some .FunctionCallOutOfGas, .OutOfGas, [], 5⟩ := by decide

/-- Claim C1 (amended): a run result carries error FunctionCallOutOfGas,
program_code OutOfGas and gas_used = gas_limit exactly when the entry-point
export resolves, the invocation returns an engine error, and the gas-left
reading is 0 — which happens either because metering is off (the reading is
then constantly 0) or because metering is on and the remaining points are 0.
The hypothesis restricts to the engine-reachable runs: with metering off and
a nonzero gas_priority the engine's set_remaining_points aborts before any
result is produced, outside this model. -/
theorem run_out_of_gas_characterization (gas_used : Bool) (env : RunEnv)
    (gas_priority gas_limit : Nat)
    (_hreach : gas_used = true ∨ gas_priority = 0) :
    ((VMLauncher.run gas_used env gas_priority gas_limit).error
        = some .FunctionCallOutOfGas ∧
     (VMLauncher.run gas_used env gas_priority gas_limit).program_code = .OutOfGas ∧
     (VMLauncher.run gas_used env gas_priority gas_limit).gas_used = gas_limit)
    ↔ (env.exportRes = .ok () ∧ (∃ e, env.callResult = .error e) ∧
       (gas_used = false ∨ env.meterLeft = 0)) := by
  unfold VMLauncher.run
  cases he : env.exportRes with
  | error e =>
    constructor
    · rintro ⟨h1, -, -⟩
      exact absurd h1 (by simp)
    · rintro ⟨h1, -, -⟩
      exact absurd h1 (by simp)
  | ok u =>
    cases u
    cases hc : env.callResult with
    | ok vals =>
      constructor
      · rintro ⟨h1, -, -⟩
        exact absurd h1 (ret_program_error_ne_oog env.readFn vals _)
      · rintro ⟨-, ⟨e, he2⟩, -⟩
        exact absurd he2 (by simp)
    | error s =>
      cases hg : VMLauncher.getGasLeft gas_used env.meterLeft with
      | zero =>
        constructor
        · intro _
          exact ⟨rfl, ⟨s, rfl⟩, (getGasLeft_eq_zero_iff gas_used env.meterLeft).mp hg⟩
        · intro _
          exact ⟨rfl, rfl, rfl⟩
      | succ n =>
        constructor
        · rintro ⟨h1, -, -⟩
          exact absurd h1 (by simp)
        · rintro ⟨-, -, hor⟩
          have h0 := (getGasLeft_eq_zero_iff gas_used env.meterLeft).mpr hor
          rw [hg] at h0
          exact absurd h0 (by simp)

/-- Claim C1 witness: the characterization applied to a concrete
non-metered run with an engine error and 7 live points, at gas_priority 0
and gas_limit 5. -/
theorem run_out_of_gas_characterization_witness :
    (VMLauncher.run false envTrap 0 5).error = some .FunctionCallOutOfGas ∧
    (VMLauncher.run false envTrap 0 5).program_code = .OutOfGas ∧
    (VMLauncher.run false envTrap 0 5).gas_used = 5 :=
  (run_out_of_gas_characterization false envTrap 0 5 (Or.inr rfl)).mpr
    ⟨rfl, ⟨"guest trap", rfl⟩, Or.inl rfl⟩

/-- Claim C2 counterexample: a run on a launcher with metering off whose
invocation returns an engine error reports gas_used = gas_limit = 5, not 0
(the OutOfGas synthesis returns the caller-supplied limit verbatim). -/
theorem run_metering_off_nonzero_gas :
    (VMLauncher.run false envTrap 0 5).gas_used = 5 ∧ (5 : Nat) ≠ 0 := by decide

/-- Claim C2 (amended): with metering off and gas_priority 0 the reported
gas_used is 0 when the export lookup fails and 0 on a successful invocation,
but equals gas_limit when the invocation returns an engine error (the run is
then misreported as OutOfGas).  Metering-off runs with nonzero gas_priority
abort in the engine's set_remaining_points, outside this model. -/
theorem run_metering_off_gas_characterization (env : RunEnv) (gas_limit : Nat) :
    (VMLauncher.run false env 0 gas_limit).gas_used =
      (match env.exportRes, env.callResult with
       | .error _, _ => 0
       | .ok _, .error _ => gas_limit
       | .ok _, .ok _ => 0) := by
  unfold VMLauncher.run
  cases env.exportRes with
  | error e => rfl
  | ok u =>
    cases env.callResult with
    | error s => rfl
    | ok vals =>
      rw [ret_program_gas_eq]
      rfl

/-- Claim C5: on a metered run with gas_priority at least 1, the installed
effective limit is gas_limit / gas_priority (integer division), and a
successful invocation reports gas_used = (effective limit - remaining
points) * gas_priority.  The bound hypotheses keep the u64 arithmetic exact:
gas_limit fits in a u64 and the engine's remaining points do not exceed the
freshly installed limit. -/
theorem run_metered_gas_scaling (env : RunEnv) (gas_priority gas_limit : Nat)
    (hp : 1 ≤ gas_priority) (hl : gas_limit < 2^64)
    (hm : env.meterLeft ≤ VMLauncher.calc_gas gas_priority gas_limit)
    (he : env.exportRes = .ok ()) (vs : List Value)
    (hc : env.callResult = .ok vs) :
    VMLauncher.installedPoints gas_priority gas_limit
      = some (gas_limit / gas_priority) ∧
    (VMLauncher.run true env gas_priority gas_limit).gas_used
      = (gas_limit / gas_priority - env.meterLeft) * gas_priority := by
  have hpne : gas_priority ≠ 0 := by omega
  constructor
  · unfold VMLauncher.installedPoints
    rw [if_pos hpne]
    rfl
  · unfold VMLauncher.run
    rw [he, hc, ret_program_gas_eq, if_pos hpne]
    have hml : env.meterLeft ≤ gas_limit / gas_priority := hm
    have hdl : gas_limit / gas_priority ≤ gas_limit := Nat.div_le_self _ _
    have hgl : VMLauncher.getGasLeft true env.meterLeft = env.meterLeft := rfl
    rw [hgl]
    have e1 : u64sub (VMLauncher.calc_gas gas_priority gas_limit) env.meterLeft
        = gas_limit / gas_priority - env.meterLeft := by
      unfold u64sub VMLauncher.calc_gas
      have h1 : 2^64 + gas_limit / gas_priority - env.meterLeft
          = 2^64 + (gas_limit / gas_priority - env.meterLeft) := by omega
      rw [h1, Nat.add_mod_left]
      exact Nat.mod_eq_of_lt (by omega)
    rw [e1]
    unfold u64mul
    refine Nat.mod_eq_of_lt ?_
    calc (gas_limit / gas_priority - env.meterLeft) * gas_priority
        ≤ gas_limit / gas_priority * gas_priority :=
          Nat.mul_le_mul_right _ (Nat.sub_le _ _)
      _ ≤ gas_limit := Nat.div_mul_le_self _ _
      _ < 2^64 := hl

/-- Claim C5 witness: the spec's gas-scaling scenario: run(3, 9000) on a
guest consuming 1000 unscaled units (2000 points remain) installs limit
3000 and reports gas_used = 3000. -/
theorem run_metered_gas_scaling_witness :
    VMLauncher.installedPoints 3 9000 = some 3000 ∧
    (VMLauncher.run true envScaling 3 9000).gas_used = 3000 := by
  have h := run_metered_gas_scaling envScaling 3 9000 (by decide)
    (by norm_num) (by decide) rfl [Value.i32 0] rfl
  exact ⟨h.1, h.2⟩

/-- Claim C6 counterexample: running the spec's happy-path module — the
entry point returns a pointer to the frame [1, 0, 0, 0, 0, 0x41] — with
run(0, 0, "example") yields program_data [] (the inner length 1 covers only
the Ok code byte, so mem_read returns the single byte [0]), not the claimed
program_data [0x41]. -/
theorem run_happy_path_frame_counterexample :
    VMLauncher.run false envS3 0 0 = ⟨none, .Ok, [], 0⟩ ∧
    VMLauncher.run false envS3 0 0 ≠ ⟨none, .Ok, [65], 0⟩ := by decide

/-- Claim C6 (amended): the run on the frame [1, 0, 0, 0, 0, 0x41] yields
error none, code Ok, data [] and gas 0; the frame [2, 0, 0, 0, 0, 0x41],
whose inner length 2 covers the code byte and one payload byte, is the one
that yields data [0x41]. -/
theorem run_happy_path_frame_result :
    VMLauncher.run false envS3 0 0 = ⟨none, .Ok, [], 0⟩ ∧
    VMLauncher.run false envS3b 0 0 = ⟨none, .Ok, [65], 0⟩ := by decide

/-- Claim C10 counterexample: with metering enabled and gas_priority 0,
nothing is installed (installedPoints is none) and gas_limit_calc is 0,
while the gas-left reading returns the 5 live metering points; the success
path's subtraction gas_limit_calc - gas_left then underflows. -/
theorem run_gas_sub_underflow_example :
    VMLauncher.runGasSubUnderflows true envLivePoints 0 0 = true ∧
    VMLauncher.getGasLeft true envLivePoints.meterLeft = 5 ∧
    VMLauncher.installedPoints 0 0 = none := by decide

/-- Claim C10 (amended): the subtractions gas_limit_calc - gas_left in run
never underflow on a run with metering off and gas_priority 0 (the gas-left
reading is 0 there), nor on a metered run with gas_priority at least 1 whose
remaining points do not exceed the installed limit gas_limit / gas_priority;
but on a metered run with gas_priority 0 any nonzero live points underflow
the subtraction, as the counterexample shows. -/
theorem run_gas_sub_no_underflow (gas_used : Bool) (env : RunEnv)
    (gas_priority gas_limit : Nat)
    (h : (gas_used = false ∧ gas_priority = 0) ∨
         (gas_used = true ∧ 1 ≤ gas_priority ∧
          env.meterLeft ≤ VMLauncher.calc_gas gas_priority gas_limit)) :
    VMLauncher.runGasSubUnderflows gas_used env gas_priority gas_limit = false := by
  unfold VMLauncher.runGasSubUnderflows
  cases env.exportRes with
  | error e => rfl
  | ok u =>
    cases env.callResult with
    | error s =>
      cases hg : VMLauncher.getGasLeft gas_used env.meterLeft with
      | zero => rfl
      | succ n =>
        rcases h with ⟨hgu, hp⟩ | ⟨hgu, hp, hm⟩
        · subst hgu
          exact absurd hg (by simp [VMLauncher.getGasLeft])
        · subst hgu
          rw [if_pos (by omega)]
          have hgl : VMLauncher.getGasLeft true env.meterLeft = env.meterLeft := rfl
          rw [hgl] at hg
          simp only [decide_eq_false_iff_not, not_lt]
          omega
    | ok vals =>
      rcases h with ⟨hgu, hp⟩ | ⟨hgu, hp, hm⟩
      · subst hgu hp
        rfl
      · subst hgu
        rw [if_pos (by omega)]
        have hgl : VMLauncher.getGasLeft true env.meterLeft = env.meterLeft := rfl
        rw [hgl]
        simp only [decide_eq_false_iff_not, not_lt]
        exact hm

/-- Claim C10 witness: a metered run at gas_priority 3 and gas_limit 9 with
2 remaining points (at most the installed limit 3) does not underflow. -/
theorem run_gas_sub_no_underflow_witness :
    VMLauncher.runGasSubUnderflows true envSmallLeft 3 9 = false :=
  run_gas_sub_no_underflow true envSmallLeft 3 9 (Or.inr ⟨rfl, by decide, by decide⟩)

/-- Claim C3: the plain-store write requests only len(d) bytes from
mem_alloc (memory.rs line 29) while the mutable-store write requests
len(d) + 4 (line 48), although both then write the len(d) + 4 byte frame
(4-byte length prefix plus payload) at the returned pointer and return that
pointer: for d = [0x41] the plain variant allocates 1 byte yet writes the
5-byte frame, so the two overloads do not implement the claimed common
contract and the plain variant under-allocates by 4 bytes. -/
theorem mem_write_alloc_size_mismatch :
    VmMemory.writeStoreAllocSize [65] = 1 ∧
    VmMemory.writeMutStoreAllocSize [65] = 5 ∧
    (Memory.encode [65]).length = 5 ∧
    VmMemory.writeStoreAllocSize [65] ≠ [65].length + 4 ∧
    VmMemory.mem_write_store envWrite [65] = .ok 16 ∧
    VmMemory.mem_write_mut_store envWrite [65] = .ok 16 :=
  ⟨by decide, by decide, by decide, by decide, rfl, rfl⟩

/-- Claim C4 counterexample: when the guest's mem_alloc returns the i32
value 0, both alloc operations return the pointer 0 as a success, not an
error — the zero pointer is not treated as allocation failure. -/
theorem mem_alloc_zero_ptr_is_ok :
    VmMemory.mem_alloc_store envAllocZero 5 = .ok 0 ∧
    VmMemory.mem_alloc_store_mut envAllocZero 5 = .ok 0 :=
  ⟨rfl, rfl⟩

/-- Claim C4 (amended): both alloc operations behave identically and fail
exactly when the mem_alloc export is absent, the call to it traps, or the
call yields a non-i32 value; an i32 result n — including 0 — is returned as
the successful pointer n as u32. -/
theorem mem_alloc_characterization (env : AllocEnv) (size : Nat) :
    (VmMemory.mem_alloc_store env size = VmMemory.mem_alloc_store_mut env size) ∧
    (∀ e, env.getFn = .error e →
      VmMemory.mem_alloc_store env size = .error (.MemoryAllocGetFnFail e)) ∧
    (∀ e, env.getFn = .ok () → env.call size = .error e →
      VmMemory.mem_alloc_store env size = .error (.MemoryAllocCallFnFail e)) ∧
    (env.getFn = .ok () → env.call size = .ok .other →
      VmMemory.mem_alloc_store env size = .error .MemoryAllocPtrEmpty) ∧
    (∀ n, env.getFn = .ok () → env.call size = .ok (.i32 n) →
      VmMemory.mem_alloc_store env size = .ok (i32ToU32 n)) := by
  refine ⟨rfl, ?_, ?_, ?_, ?_⟩
  · intro e h
    unfold VmMemory.mem_alloc_store
    rw [h]
  · intro e h1 h2
    unfold VmMemory.mem_alloc_store
    rw [h1, h2]
  · intro h1 h2
    unfold VmMemory.mem_alloc_store
    rw [h1, h2]
    rfl
  · intro n h1 h2
    unfold VmMemory.mem_alloc_store
    rw [h1, h2]
    rfl

/-- Claim C4 witness: the characterization applied to the concrete
allocator environment whose call yields the i32 value 0: both variants
agree and the result is the successful pointer 0. -/
theorem mem_alloc_characterization_witness :
    (VmMemory.mem_alloc_store envAllocZero 5
      = VmMemory.mem_alloc_store_mut envAllocZero 5) ∧
    VmMemory.mem_alloc_store envAllocZero 5 = .ok (i32ToU32 0) :=
  ⟨(mem_alloc_characterization envAllocZero 5).1,
   (mem_alloc_characterization envAllocZero 5).2.2.2.2 0 rfl rfl⟩
